import Mathlib

/-!
The book / author GraphQL schema

A shallow embedding of `src/server/schema/schema.js`: the two literal
collections `books` and `authors`, and the six `resolve` functions of the
schema (`BookType.fields.author`, `AuthorType.fields.book` and the four
fields of `RootQuery`).

JavaScript values are embedded as follows.

* An object literal of `books` is a `Book`, one of `authors` an `Author`;
  every field is a string except `age`, a number holding an integer.
* `undefined` is `none`: a resolver that returns `xs[0]` returns an
  `Option`, and the `id` entry of the argument object is an `Option String`
  (`none` when the query gives no `id`).
* `Array.prototype.filter` is `List.filter`, which keeps the elements the
  callback accepts, in the order of the array.
* `===` between two strings is equality of strings; between a string and
  `undefined` it is `false`.
-/

/-- An entry of the `books` array: `{ name, genre, id, authorId }`. -/
structure Book where
  name : String
  genre : String
  id : String
  authorId : String
deriving DecidableEq

/-- An entry of the `authors` array: `{ name, age, id }`. -/
structure Author where
  name : String
  age : Int
  id : String
deriving DecidableEq

/-- The array `books` of schema.js, lines 5-12, spelled as in the source. -/
def books : List Book :=
  [ { name := "Name of thw Wind", genre := "Fantasy", id := "1", authorId := "1" },
    { name := "The Final Empire", genre := "Fantasy", id := "2", authorId := "2" },
    { name := "The Long Earth", genre := "Sci-Fi", id := "3", authorId := "3" },
    { name := "The Hero Of Ages", genre := "Fantasy", id := "4", authorId := "2" },
    { name := "The Colourof Magic", genre := "Fantasy", id := "5", authorId := "3" },
    { name := "The Loght Fantastic", genre := "Fantasy", id := "6", authorId := "3" } ]

/-- The array `authors` of schema.js, lines 14-18. -/
def authors : List Author :=
  [ { name := "Patrick Bateman", age := 29, id := "1" },
    { name := "Bruce Wayne", age := 33, id := "2" },
    { name := "Peter Parker", age := 25, id := "3" } ]

/-- The argument object of the root fields `book` and `author`, declared as
`args: { id: { type: GraphQLID } }`: `args.id` is a string, or `undefined`
(`none`) when the query leaves the argument out. -/
structure Args where
  id : Option String
deriving DecidableEq

/-- The comparison `s === v` of a string `s` with a value `v` that is a
string or `undefined`: true exactly when `v` is the same string. -/
def strictEq (s : String) (v : Option String) : Bool :=
  match v with
  | some t => decide (s = t)
  | none => false

/-- The element access `xs[0]` on an array: the first element, and
`undefined` (`none`) on the empty array. -/
def elem0 {α : Type} (xs : List α) : Option α :=
  match xs with
  | [] => none
  | x :: _ => some x

/-- `BookType.fields.author.resolve(parent, _args)`:
`authors.filter(object => object.id === parent.authorId)[0]`. -/
def BookType.fields.author.resolve {A : Type} (parent : Book) (_args : A) : Option Author :=
  elem0 (authors.filter (fun object => decide (object.id = parent.authorId)))

/-- `AuthorType.fields.book.resolve(parent, args)`:
`books.filter(object => object.authorId === parent.id)`. -/
def AuthorType.fields.book.resolve {A : Type} (parent : Author) (_args : A) : List Book :=
  books.filter (fun object => decide (object.authorId = parent.id))

/-- `RootQuery.fields.book.resolve(_parent, args)`:
`books.filter(object => object.id === args.id)[0]`. -/
def RootQuery.fields.book.resolve {P : Type} (_parent : P) (args : Args) : Option Book :=
  elem0 (books.filter (fun object => strictEq object.id args.id))

/-- `RootQuery.fields.author.resolve(_parent, args)`:
`authors.filter(object => object.id === args.id)[0]`. -/
def RootQuery.fields.author.resolve {P : Type} (_parent : P) (args : Args) : Option Author :=
  elem0 (authors.filter (fun object => strictEq object.id args.id))

/-- `RootQuery.fields.books.resolve(_parent, _args)`: `books`. -/
def RootQuery.fields.books.resolve {P A : Type} (_parent : P) (_args : A) : List Book :=
  books

/-- `RootQuery.fields.authors.resolve(_parent, _args)`: `authors`. -/
def RootQuery.fields.authors.resolve {P A : Type} (_parent : P) (_args : A) : List Author :=
  authors

/-! ## The declared shape of the schema -/

/-- The types a field or an argument is declared with in schema.js: the three
scalars taken from the `graphql` package, the two object types of the file
(referred to by the constant that holds them) and `new GraphQLList(t)`. -/
inductive GraphQLType where
  | GraphQLString : GraphQLType
  | GraphQLID : GraphQLType
  | GraphQLInt : GraphQLType
  | BookType : GraphQLType
  | AuthorType : GraphQLType
  | GraphQLList (ofType : GraphQLType) : GraphQLType
deriving DecidableEq

/-- One entry `key: { type: t }` of an `args` object. -/
structure GraphQLArgument where
  name : String
  type : GraphQLType
deriving DecidableEq

/-- One entry `key: { type: t, args: { ... }, resolve }` of a `fields` object,
without its `resolve` function (those are the `resolve` definitions above).
A field written without an `args` key has the empty list of arguments. -/
structure GraphQLField where
  name : String
  type : GraphQLType
  args : List GraphQLArgument
deriving DecidableEq

/-- The configuration given to `new GraphQLObjectType({ name, fields })`, the
fields in the order they are written. -/
structure GraphQLObjectType where
  name : String
  fields : List GraphQLField
deriving DecidableEq

/-- The configuration given to `new GraphQLSchema({ query })`. -/
structure GraphQLSchema where
  query : GraphQLObjectType
deriving DecidableEq

/-- `BookType` of schema.js, lines 20-33. -/
def BookType : GraphQLObjectType :=
  { name := "book",
    fields :=
      [ { name := "id", type := GraphQLType.GraphQLID, args := [] },
        { name := "name", type := GraphQLType.GraphQLString, args := [] },
        { name := "genre", type := GraphQLType.GraphQLString, args := [] },
        { name := "author", type := GraphQLType.AuthorType, args := [] } ] }

/-- `AuthorType` of schema.js, lines 35-48. -/
def AuthorType : GraphQLObjectType :=
  { name := "author",
    fields :=
      [ { name := "id", type := GraphQLType.GraphQLID, args := [] },
        { name := "name", type := GraphQLType.GraphQLString, args := [] },
        { name := "age", type := GraphQLType.GraphQLInt, args := [] },
        { name := "book", type := GraphQLType.GraphQLList GraphQLType.BookType, args := [] } ] }

/-- `RootQuery` of schema.js, lines 50-80. -/
def RootQuery : GraphQLObjectType :=
  { name := "RootQueryType",
    fields :=
      [ { name := "book", type := GraphQLType.BookType,
          args := [ { name := "id", type := GraphQLType.GraphQLID } ] },
        { name := "author", type := GraphQLType.AuthorType,
          args := [ { name := "id", type := GraphQLType.GraphQLID } ] },
        { name := "books", type := GraphQLType.GraphQLList GraphQLType.BookType, args := [] },
        { name := "authors", type := GraphQLType.GraphQLList GraphQLType.AuthorType,
          args := [] } ] }

/-- The exported `new GraphQLSchema({ query: RootQuery })`, lines 82-84. -/
def schema : GraphQLSchema :=
  { query := RootQuery }

/-! ## Lemmas on `filter(...)[0]` -/

theorem strictEq_some (s t : String) : strictEq s (some t) = true ↔ s = t := by
  simp [strictEq]

theorem elem0_eq_head? {α : Type} (xs : List α) : elem0 xs = xs.head? := by
  cases xs <;> rfl

/-- The value of `l.filter(p)[0]` is `b` exactly when `b` stands at some position
`i` of `l`, `p` accepts it, and `p` rejects everything before position `i`. -/
theorem elem0_filter_eq_some_iff {α : Type} (p : α → Bool) (l : List α) (b : α) :
    elem0 (l.filter p) = some b ↔
      ∃ i, l[i]? = some b ∧ p b = true ∧ ∀ j : Nat, j < i → ∀ c, l[j]? = some c → p c = false := by
  induction l with
  | nil => simp [elem0]
  | cons x xs ih =>
    by_cases hx : p x = true
    · rw [List.filter_cons_of_pos hx]
      constructor
      · intro h
        have hb : x = b := by simpa [elem0] using h
        subst hb
        exact ⟨0, by simp, hx, fun j hj => absurd hj (Nat.not_lt_zero j)⟩
      · rintro ⟨i, hi, _, hfirst⟩
        cases i with
        | zero => simpa [elem0] using hi
        | succ k =>
          have := hfirst 0 (Nat.succ_pos k) x (by simp)
          rw [hx] at this
          exact absurd this (by decide)
    · have hx' : p x = false := by simpa using hx
      rw [List.filter_cons_of_neg hx, ih]
      constructor
      · rintro ⟨i, hi, hb, hfirst⟩
        refine ⟨i + 1, by simpa using hi, hb, ?_⟩
        intro j hj c hc
        cases j with
        | zero =>
          have : x = c := by simpa using hc
          rw [← this]; exact hx'
        | succ k => exact hfirst k (Nat.lt_of_succ_lt_succ hj) c (by simpa using hc)
      · rintro ⟨i, hi, hb, hfirst⟩
        cases i with
        | zero =>
          have : x = b := by simpa using hi
          rw [this] at hx
          exact absurd hb hx
        | succ k =>
          refine ⟨k, by simpa using hi, hb, ?_⟩
          intro j hj c hc
          exact hfirst (j + 1) (Nat.succ_lt_succ hj) c (by simpa using hc)

/-- The value of `l.filter(p)[0]` is `undefined` exactly when `p` rejects every
element of `l`. -/
theorem elem0_filter_eq_none_iff {α : Type} (p : α → Bool) (l : List α) :
    elem0 (l.filter p) = none ↔ ∀ x ∈ l, p x = false := by
  rw [elem0_eq_head?, List.filter_head?, List.find?_eq_none]
  simp

/-- Every subsequence of `l` whose elements are all accepted by `p` is a
subsequence of `l.filter(p)`: the filter result is the largest such one. -/
theorem sublist_filter_of_forall {α : Type} (p : α → Bool) (l m : List α)
    (hm : List.Sublist m l) (hp : ∀ x ∈ m, p x = true) : List.Sublist m (l.filter p) := by
  have h := hm.filter p
  rwa [List.filter_eq_self.mpr hp] at h

/-! ## The root lookups `book(id)` and `author(id)` -/

/-- C1: for every id string, `RootQuery.book(id)` is the first entry of `books`, in
stored order, whose id equals the given id: it is `b` exactly when `b` stands at
a position `i` of `books`, has the given id, and no entry before position `i`
has it. It is absent exactly when no entry of `books` has that id. The result
is the one a left-to-right search for the id gives. -/
theorem rootQuery_book_first_match {P : Type} (parent : P) (id : String) :
    (∀ b : Book, RootQuery.fields.book.resolve parent ⟨some id⟩ = some b ↔
        ∃ i, books[i]? = some b ∧ b.id = id ∧
          ∀ j : Nat, j < i → ∀ c, books[j]? = some c → c.id ≠ id) ∧
    (RootQuery.fields.book.resolve parent ⟨some id⟩ = none ↔ ∀ b ∈ books, b.id ≠ id) ∧
    RootQuery.fields.book.resolve parent ⟨some id⟩ =
      books.find? (fun b => decide (b.id = id)) := by
  refine ⟨fun b => ?_, ?_, ?_⟩
  · unfold RootQuery.fields.book.resolve
    rw [elem0_filter_eq_some_iff]
    simp [strictEq]
  · unfold RootQuery.fields.book.resolve
    rw [elem0_filter_eq_none_iff]
    simp [strictEq]
  · unfold RootQuery.fields.book.resolve
    rw [elem0_eq_head?, List.filter_head?]
    simp [strictEq]

/-- C2: for every id string, `RootQuery.author(id)` is the first entry of
`authors`, in stored order, whose id equals the given id, and is absent exactly
when no entry of `authors` has that id; for id "2" the author returned has name
"Bruce Wayne" and age 33. -/
theorem rootQuery_author_first_match {P : Type} (parent : P) (id : String) :
    (∀ a : Author, RootQuery.fields.author.resolve parent ⟨some id⟩ = some a ↔
        ∃ i, authors[i]? = some a ∧ a.id = id ∧
          ∀ j : Nat, j < i → ∀ c, authors[j]? = some c → c.id ≠ id) ∧
    (RootQuery.fields.author.resolve parent ⟨some id⟩ = none ↔ ∀ a ∈ authors, a.id ≠ id) ∧
    RootQuery.fields.author.resolve parent ⟨some id⟩ =
      authors.find? (fun a => decide (a.id = id)) ∧
    (∃ a : Author, RootQuery.fields.author.resolve parent ⟨some "2"⟩ = some a ∧
        a.name = "Bruce Wayne" ∧ a.age = 33) := by
  refine ⟨fun a => ?_, ?_, ?_, ?_⟩
  · unfold RootQuery.fields.author.resolve
    rw [elem0_filter_eq_some_iff]
    simp [strictEq]
  · unfold RootQuery.fields.author.resolve
    rw [elem0_filter_eq_none_iff]
    simp [strictEq]
  · unfold RootQuery.fields.author.resolve
    rw [elem0_eq_head?, List.filter_head?]
    simp [strictEq]
  · refine ⟨⟨"Bruce Wayne", 33, "2"⟩, ?_, rfl, rfl⟩
    unfold RootQuery.fields.author.resolve
    decide

/-! ## The cross-reference fields `Book.author` and `Author.book` -/

/-- C3: for every parent book record, whatever its `authorId` and whether or not
the record is in `books`, `Book.author(parent)` is the first entry of `authors`
whose id equals `parent.authorId`, and is absent exactly when no author has
that id. -/
theorem bookType_author_first_match {A : Type} (parent : Book) (args : A) :
    (∀ a : Author, BookType.fields.author.resolve parent args = some a ↔
        ∃ i, authors[i]? = some a ∧ a.id = parent.authorId ∧
          ∀ j : Nat, j < i → ∀ c, authors[j]? = some c → c.id ≠ parent.authorId) ∧
    (BookType.fields.author.resolve parent args = none ↔
        ∀ a ∈ authors, a.id ≠ parent.authorId) ∧
    BookType.fields.author.resolve parent args =
      authors.find? (fun a => decide (a.id = parent.authorId)) := by
  refine ⟨fun a => ?_, ?_, ?_⟩
  · unfold BookType.fields.author.resolve
    rw [elem0_filter_eq_some_iff]
    simp
  · unfold BookType.fields.author.resolve
    rw [elem0_filter_eq_none_iff]
    simp
  · unfold BookType.fields.author.resolve
    rw [elem0_eq_head?, List.filter_head?]

/-- C4: for every parent author record, `Author.book(parent)` is a subsequence of
`books` (its entries stand in the same relative order as in `books`), it holds
exactly the entries of `books` whose `authorId` equals `parent.id`, each as
often as `books` does, and every subsequence of `books` made of such entries
is a subsequence of it. -/
theorem authorType_book_subsequence {A : Type} (parent : Author) (args : A) :
    List.Sublist (AuthorType.fields.book.resolve parent args) books ∧
    (∀ b : Book, b ∈ AuthorType.fields.book.resolve parent args ↔
        b ∈ books ∧ b.authorId = parent.id) ∧
    (∀ b : Book, b.authorId = parent.id →
        (AuthorType.fields.book.resolve parent args).count b = books.count b) ∧
    (∀ m : List Book, List.Sublist m books → (∀ b ∈ m, b.authorId = parent.id) →
        List.Sublist m (AuthorType.fields.book.resolve parent args)) := by
  unfold AuthorType.fields.book.resolve
  refine ⟨List.filter_sublist _, fun b => ?_, fun b hb => ?_, fun m hm hp => ?_⟩
  · simp [List.mem_filter]
  · rw [List.count_filter]
    simpa using hb
  · exact sublist_filter_of_forall _ books m hm (fun x hx => by simpa using hp x hx)

/-! ## The root lists `books` and `authors` -/

/-- C5: for any parent and arguments, `RootQuery.books()` is the whole `books`
collection, unfiltered and in stored order: it has exactly 6 entries, it equals
the literal dataset entry by entry, and its ids are "1" to "6" in that order. -/
theorem rootQuery_books_full {P A : Type} (parent : P) (args : A) :
    RootQuery.fields.books.resolve parent args = books ∧
    (RootQuery.fields.books.resolve parent args).length = 6 ∧
    RootQuery.fields.books.resolve parent args =
      [ { name := "Name of thw Wind", genre := "Fantasy", id := "1", authorId := "1" },
        { name := "The Final Empire", genre := "Fantasy", id := "2", authorId := "2" },
        { name := "The Long Earth", genre := "Sci-Fi", id := "3", authorId := "3" },
        { name := "The Hero Of Ages", genre := "Fantasy", id := "4", authorId := "2" },
        { name := "The Colourof Magic", genre := "Fantasy", id := "5", authorId := "3" },
        { name := "The Loght Fantastic", genre := "Fantasy", id := "6", authorId := "3" } ] ∧
    (RootQuery.fields.books.resolve parent args).map Book.id =
      ["1", "2", "3", "4", "5", "6"] :=
  ⟨rfl, rfl, rfl, rfl⟩

/-- C6: for any parent and arguments, `RootQuery.authors()` is the whole `authors`
collection, unfiltered and in stored order: exactly the 3 literal author
records, with ids "1", "2", "3" in that order. -/
theorem rootQuery_authors_full {P A : Type} (parent : P) (args : A) :
    RootQuery.fields.authors.resolve parent args = authors ∧
    (RootQuery.fields.authors.resolve parent args).length = 3 ∧
    RootQuery.fields.authors.resolve parent args =
      [ { name := "Patrick Bateman", age := 29, id := "1" },
        { name := "Bruce Wayne", age := 33, id := "2" },
        { name := "Peter Parker", age := 25, id := "3" } ] ∧
    (RootQuery.fields.authors.resolve parent args).map Author.id = ["1", "2", "3"] :=
  ⟨rfl, rfl, rfl, rfl⟩

/-! ## Lookups without a match -/

/-- C7: an unmatched lookup gives an absent result, not a failure: for every id
string that no entry of `books` has, `RootQuery.book(id)` is absent, and
likewise `RootQuery.author(id)` over `authors`; `RootQuery.book("999")` is
absent; and element 0 of an empty filter result is the absent value. -/
theorem unmatched_lookup_absent {P : Type} (parent : P) (id : String) :
    ((∀ b ∈ books, b.id ≠ id) → RootQuery.fields.book.resolve parent ⟨some id⟩ = none) ∧
    ((∀ a ∈ authors, a.id ≠ id) →
        RootQuery.fields.author.resolve parent ⟨some id⟩ = none) ∧
    RootQuery.fields.book.resolve parent ⟨some "999"⟩ = none ∧
    (books.filter (fun object => strictEq object.id (some id)) = [] →
        RootQuery.fields.book.resolve parent ⟨some id⟩ = none) ∧
    (authors.filter (fun object => strictEq object.id (some id)) = [] →
        RootQuery.fields.author.resolve parent ⟨some id⟩ = none) ∧
    elem0 ([] : List Book) = none ∧ elem0 ([] : List Author) = none := by
  refine ⟨fun h => ?_, fun h => ?_, ?_, fun h => ?_, fun h => ?_, rfl, rfl⟩
  · unfold RootQuery.fields.book.resolve
    rw [elem0_filter_eq_none_iff]
    intro x hx
    simpa [strictEq] using h x hx
  · unfold RootQuery.fields.author.resolve
    rw [elem0_filter_eq_none_iff]
    intro x hx
    simpa [strictEq] using h x hx
  · unfold RootQuery.fields.book.resolve
    decide
  · unfold RootQuery.fields.book.resolve
    rw [h]; rfl
  · unfold RootQuery.fields.author.resolve
    rw [h]; rfl

/-- The lookups of C7 at the id "999", which neither collection holds. -/
theorem unmatched_lookup_absent_witness :
    (∀ b ∈ books, b.id ≠ "999") ∧ (∀ a ∈ authors, a.id ≠ "999") ∧
    RootQuery.fields.book.resolve () ⟨some "999"⟩ = none ∧
    RootQuery.fields.author.resolve () ⟨some "999"⟩ = none :=
  ⟨by decide, by decide,
    (unmatched_lookup_absent () "999").1 (by decide),
    (unmatched_lookup_absent () "999").2.1 (by decide)⟩

/-! ## Consistency of the cross-reference fields -/

/-- C8: for every book `b`, if some entry of `authors` has id `b.authorId` then
`Book.author(b)` is present and its id equals `b.authorId`; otherwise
`Book.author(b)` is absent. -/
theorem bookType_author_id_eq {A : Type} (b : Book) (args : A) :
    ((∃ a ∈ authors, a.id = b.authorId) →
        ∃ a, BookType.fields.author.resolve b args = some a ∧ a.id = b.authorId) ∧
    ((¬ ∃ a ∈ authors, a.id = b.authorId) →
        BookType.fields.author.resolve b args = none) := by
  constructor
  · rintro ⟨a, ha, hid⟩
    cases hr : BookType.fields.author.resolve b args with
    | none =>
      unfold BookType.fields.author.resolve at hr
      rw [elem0_filter_eq_none_iff] at hr
      have := hr a ha
      simp [hid] at this
    | some r =>
      refine ⟨r, rfl, ?_⟩
      unfold BookType.fields.author.resolve at hr
      rw [elem0_filter_eq_some_iff] at hr
      obtain ⟨_, _, hp, _⟩ := hr
      simpa using hp
  · intro h
    unfold BookType.fields.author.resolve
    rw [elem0_filter_eq_none_iff]
    intro x hx
    have : x.id ≠ b.authorId := fun he => h ⟨x, hx, he⟩
    simpa using this

/-- The two cases of C8: the third book, whose `authorId` "3" is the id of an
author, and a book record with the dangling `authorId` "4". -/
theorem bookType_author_id_eq_witness :
    ((∃ a ∈ authors, a.id = "3") ∧
      ∃ a, BookType.fields.author.resolve
          { name := "The Long Earth", genre := "Sci-Fi", id := "3", authorId := "3" } () = some a ∧
        a.id = "3") ∧
    ((¬ ∃ a ∈ authors, a.id = "4") ∧
      BookType.fields.author.resolve
        { name := "Mort", genre := "Fantasy", id := "7", authorId := "4" } () = none) :=
  ⟨⟨by decide, (bookType_author_id_eq
      { name := "The Long Earth", genre := "Sci-Fi", id := "3", authorId := "3" } ()).1
        (by decide)⟩,
    ⟨by decide, (bookType_author_id_eq
      { name := "Mort", genre := "Fantasy", id := "7", authorId := "4" } ()).2 (by decide)⟩⟩

/-- C9: for every author `a`, every entry of `Author.book(a)` has `authorId` equal
to `a.id`; a record is an entry of `Author.book(a)` if and only if it is an
entry of `books` whose `authorId` equals `a.id`; as a set, the entries of
`Author.book(a)` are the subset of `books` filtered on that condition. -/
theorem authorType_book_sound_complete {A : Type} (a : Author) (args : A) :
    (∀ b ∈ AuthorType.fields.book.resolve a args, b.authorId = a.id) ∧
    (∀ b : Book, b ∈ AuthorType.fields.book.resolve a args ↔
        b ∈ books ∧ b.authorId = a.id) ∧
    (AuthorType.fields.book.resolve a args).toFinset =
      books.toFinset.filter (fun b => b.authorId = a.id) := by
  unfold AuthorType.fields.book.resolve
  refine ⟨fun b hb => ?_, fun b => ?_, ?_⟩
  · simpa using (List.mem_filter.mp hb).2
  · simp [List.mem_filter]
  · ext b
    simp [List.mem_filter]

/-- C10: `RootQuery.book("3")` is present and is the book "The Long Earth";
`Book.author` of it is present, has id "3", and its name equals the name of
`RootQuery.author("3")`, the author with id "3". -/
theorem book3_author_name {P A : Type} (parent : P) (args : A) :
    ∃ (b : Book) (a a3 : Author),
      RootQuery.fields.book.resolve parent ⟨some "3"⟩ = some b ∧
      b.name = "The Long Earth" ∧
      BookType.fields.author.resolve b args = some a ∧
      RootQuery.fields.author.resolve parent ⟨some "3"⟩ = some a3 ∧
      a3.id = "3" ∧ a.id = "3" ∧ a.name = a3.name := by
  refine ⟨{ name := "The Long Earth", genre := "Sci-Fi", id := "3", authorId := "3" },
    { name := "Peter Parker", age := 25, id := "3" },
    { name := "Peter Parker", age := 25, id := "3" }, ?_, rfl, ?_, ?_, rfl, rfl, rfl⟩
  · unfold RootQuery.fields.book.resolve
    decide
  · unfold BookType.fields.author.resolve
    decide
  · unfold RootQuery.fields.author.resolve
    decide

/-! ## The literal data: unique ids -/

/-- When the keys `f x` of the elements of `l` are pairwise different, a filter
that only accepts elements with the key `k` keeps at most one element. -/
theorem filter_length_le_one_of_nodup_map {α κ : Type} (f : α → κ) (k : κ) (p : α → Bool)
    (l : List α) (hp : ∀ x ∈ l, p x = true → f x = k) (h : (l.map f).Nodup) :
    (l.filter p).length ≤ 1 := by
  induction l with
  | nil => simp
  | cons x xs ih =>
    have hnd : f x ∉ xs.map f ∧ (xs.map f).Nodup := by simpa using h
    by_cases hx : p x = true
    · have hk : f x = k := hp x (List.mem_cons_self x xs) hx
      have hnil : xs.filter p = [] := by
        rw [List.filter_eq_nil_iff]
        intro y hy hpy
        have hyk : f y = k := hp y (List.mem_cons_of_mem x hy) hpy
        exact hnd.1 (List.mem_map.mpr ⟨y, hy, by rw [hyk, hk]⟩)
      rw [List.filter_cons_of_pos hx, hnil]
      simp
    · rw [List.filter_cons_of_neg hx]
      exact ih (fun y hy => hp y (List.mem_cons_of_mem x hy)) hnd.2

/-- When `l.filter(p)[0]` is `b`, then `b` is an element of `l` that `p` accepts. -/
theorem mem_of_elem0_filter_eq_some {α : Type} (p : α → Bool) (l : List α) (b : α)
    (h : elem0 (l.filter p) = some b) : b ∈ l ∧ p b = true := by
  rw [elem0_eq_head?, List.filter_head?] at h
  exact ⟨List.mem_of_find?_eq_some h, List.find?_some h⟩

/-- C11: the literal data is unique on id: no two distinct positions of `books`
hold the same id, and no two distinct positions of `authors` hold the same id;
so the list of ids of each collection has no repetition. -/
theorem literal_ids_unique :
    (∀ i j : Fin books.length, i ≠ j → (books.get i).id ≠ (books.get j).id) ∧
    (∀ i j : Fin authors.length, i ≠ j → (authors.get i).id ≠ (authors.get j).id) ∧
    (books.map Book.id).Nodup ∧ (authors.map Author.id).Nodup := by
  refine ⟨?_, ?_, ?_, ?_⟩ <;> decide

/-- The first conjunct of C11 at positions 2 and 5 of `books`, which hold the
ids "3" and "6". -/
theorem literal_ids_unique_witness :
    (books.get ⟨2, by decide⟩).id ≠ (books.get ⟨5, by decide⟩).id :=
  literal_ids_unique.1 ⟨2, by decide⟩ ⟨5, by decide⟩ (by decide)

/-! ## The declared fields, arguments and type names -/

/-- C12: the root query type, the `query` of the exported schema, has exactly four
fields, named book, author, books and authors; book and author each take
exactly one argument, named id and of type `GraphQLID`; books and authors take
no argument. -/
theorem rootQuery_fields_and_args :
    schema.query = RootQuery ∧
    (GraphQLObjectType.fields RootQuery).length = 4 ∧
    (GraphQLObjectType.fields RootQuery).map GraphQLField.name =
      ["book", "author", "books", "authors"] ∧
    (∀ f ∈ GraphQLObjectType.fields RootQuery, f.name = "book" ∨ f.name = "author" →
        f.args.length = 1 ∧
        f.args = [ { name := "id", type := GraphQLType.GraphQLID } ]) ∧
    (∀ f ∈ GraphQLObjectType.fields RootQuery, f.name = "books" ∨ f.name = "authors" →
        f.args = []) := by
  refine ⟨rfl, rfl, rfl, ?_, ?_⟩ <;> decide

/-- C13, as the code has it: the two object types are named "book" and "author",
in lower case, and the root query type is named "RootQueryType". -/
theorem schema_type_names :
    GraphQLObjectType.name BookType = "book" ∧
    GraphQLObjectType.name AuthorType = "author" ∧
    GraphQLObjectType.name RootQuery = "RootQueryType" ∧
    GraphQLObjectType.name schema.query = "RootQueryType" :=
  ⟨rfl, rfl, rfl, rfl⟩

/-- C13, as stated, fails: none of the three type names is the one the claim
gives ("Book", "Author", "RootQuery"), so they are not all as claimed. -/
theorem schema_type_names_not_as_stated :
    GraphQLObjectType.name BookType ≠ "Book" ∧
    GraphQLObjectType.name AuthorType ≠ "Author" ∧
    GraphQLObjectType.name RootQuery ≠ "RootQuery" ∧
    ¬ (GraphQLObjectType.name BookType = "Book" ∧
        GraphQLObjectType.name AuthorType = "Author" ∧
        GraphQLObjectType.name RootQuery = "RootQuery") := by
  refine ⟨?_, ?_, ?_, ?_⟩ <;> decide

/-! ## The literal data: references between the two collections -/

/-- C14: the literal dataset has no dangling reference: for every entry `b` of
`books` some entry of `authors` has id `b.authorId`, and `Book.author(b)` is
present for every book `b` that `RootQuery.books()` returns. -/
theorem no_dangling_reference {P A B : Type} (parent : P) (args : A) (args2 : B) :
    (∀ b ∈ books, ∃ a ∈ authors, a.id = b.authorId) ∧
    (∀ b ∈ RootQuery.fields.books.resolve parent args,
        ∃ a, BookType.fields.author.resolve b args2 = some a) := by
  constructor
  · decide
  · intro b hb
    have h : ∀ c ∈ books, ∃ a ∈ authors,
        elem0 (authors.filter (fun object => decide (object.id = c.authorId))) = some a := by
      decide
    obtain ⟨a, _, ha⟩ := h b hb
    exact ⟨a, ha⟩

/-- The second conjunct of C14 at the last entry of `books`. -/
theorem no_dangling_reference_witness :
    ∃ a, BookType.fields.author.resolve
      { name := "The Loght Fantastic", genre := "Fantasy", id := "6", authorId := "3" } () =
        some a :=
  (no_dangling_reference () () ()).2
    { name := "The Loght Fantastic", genre := "Fantasy", id := "6", authorId := "3" }
    (by decide)

/-- C15: on the stored data the two cross-reference resolvers are inverse to each
other: for every author `a` of `authors` and every entry `b` of
`Author.book(a)`, `Book.author(b)` is `a`; and for every book `b` of `books`,
`Book.author(b)` is present and `b` is an entry of `Author.book` of it. -/
theorem cross_reference_inverse {A B : Type} (args : A) (args2 : B) :
    (∀ a ∈ authors, ∀ b ∈ AuthorType.fields.book.resolve a args,
        BookType.fields.author.resolve b args2 = some a) ∧
    (∀ b ∈ books, ∃ a, BookType.fields.author.resolve b args2 = some a ∧
        b ∈ AuthorType.fields.book.resolve a args) := by
  constructor
  · unfold AuthorType.fields.book.resolve BookType.fields.author.resolve
    decide
  · intro b hb
    have h : ∀ c ∈ books, ∃ a ∈ authors,
        elem0 (authors.filter (fun object => decide (object.id = c.authorId))) = some a ∧
          c ∈ books.filter (fun object => decide (object.authorId = a.id)) := by
      decide
    obtain ⟨a, _, ha, hmem⟩ := h b hb
    exact ⟨a, ha, hmem⟩

/-- Both directions of C15 at the author "Bruce Wayne" and the book
"The Hero Of Ages". -/
theorem cross_reference_inverse_witness :
    BookType.fields.author.resolve
      { name := "The Hero Of Ages", genre := "Fantasy", id := "4", authorId := "2" } () =
        some { name := "Bruce Wayne", age := 33, id := "2" } ∧
    ∃ a, BookType.fields.author.resolve
        { name := "The Hero Of Ages", genre := "Fantasy", id := "4", authorId := "2" } () =
          some a ∧
      { name := "The Hero Of Ages", genre := "Fantasy", id := "4", authorId := "2" } ∈
        AuthorType.fields.book.resolve a () :=
  ⟨(cross_reference_inverse () ()).1 { name := "Bruce Wayne", age := 33, id := "2" }
      (by decide)
      { name := "The Hero Of Ages", genre := "Fantasy", id := "4", authorId := "2" }
      (by decide),
    (cross_reference_inverse () ()).2
      { name := "The Hero Of Ages", genre := "Fantasy", id := "4", authorId := "2" }
      (by decide)⟩

/-- C16: the per-author book lists partition `books`: every entry of `books` is in
`Author.book(a)` for exactly one author `a` of `authors`; the lists of two
distinct authors of `authors` share no entry; the lengths of `Author.book(a)`
over `authors` are 1, 2, 3 and sum to 6, the length of `RootQuery.books()`. -/
theorem author_books_partition {P A B : Type} (parent : P) (args : A) (args2 : B) :
    (∀ b ∈ books, ∃! a, a ∈ authors ∧ b ∈ AuthorType.fields.book.resolve a args) ∧
    (∀ a1 ∈ authors, ∀ a2 ∈ authors, a1 ≠ a2 →
        ∀ b ∈ AuthorType.fields.book.resolve a1 args,
          b ∉ AuthorType.fields.book.resolve a2 args) ∧
    authors.map (fun a => (AuthorType.fields.book.resolve a args).length) = [1, 2, 3] ∧
    (authors.map (fun a => (AuthorType.fields.book.resolve a args).length)).sum =
      (RootQuery.fields.books.resolve parent args2).length ∧
    (RootQuery.fields.books.resolve parent args2).length = 6 := by
  refine ⟨?_, ?_, ?_, ?_, rfl⟩
  · intro b hb
    have h : ∀ c ∈ books, ∃ a ∈ authors,
        c ∈ books.filter (fun object => decide (object.authorId = a.id)) ∧
          ∀ a2 ∈ authors,
            c ∈ books.filter (fun object => decide (object.authorId = a2.id)) → a2 = a := by
      decide
    obtain ⟨a, ha, hmem, huniq⟩ := h b hb
    exact ⟨a, ⟨ha, hmem⟩, fun a2 h2 => huniq a2 h2.1 h2.2⟩
  · unfold AuthorType.fields.book.resolve
    decide
  · unfold AuthorType.fields.book.resolve
    decide
  · unfold AuthorType.fields.book.resolve RootQuery.fields.books.resolve
    decide

/-- The first two conjuncts of C16 at the book "The Final Empire" and at the
authors with ids "1" and "3". -/
theorem author_books_partition_witness :
    (∃! a, a ∈ authors ∧
      { name := "The Final Empire", genre := "Fantasy", id := "2", authorId := "2" } ∈
        AuthorType.fields.book.resolve a ()) ∧
    ({ name := "Name of thw Wind", genre := "Fantasy", id := "1", authorId := "1" } : Book) ∉
      AuthorType.fields.book.resolve { name := "Peter Parker", age := 25, id := "3" } () :=
  ⟨(author_books_partition () () ()).1
      { name := "The Final Empire", genre := "Fantasy", id := "2", authorId := "2" }
      (by decide),
    (author_books_partition () () ()).2.1
      { name := "Patrick Bateman", age := 29, id := "1" } (by decide)
      { name := "Peter Parker", age := 25, id := "3" } (by decide) (by decide)
      { name := "Name of thw Wind", genre := "Fantasy", id := "1", authorId := "1" }
      (by decide)⟩

/-! ## The root lookups return the only entry with the id -/

/-- C17: for every id string, when `RootQuery.book(id)` is present the record
returned is an entry of `books`, its id is the requested id, and no other
entry of `books` has that id; the filter result has length at most 1. The
same holds for `RootQuery.author(id)` over `authors`. -/
theorem lookup_result_unique {P : Type} (parent : P) (id : String) :
    (∀ b : Book, RootQuery.fields.book.resolve parent ⟨some id⟩ = some b →
        b ∈ books ∧ b.id = id ∧ ∀ c ∈ books, c.id = id → c = b) ∧
    (books.filter (fun object => strictEq object.id (some id))).length ≤ 1 ∧
    (∀ a : Author, RootQuery.fields.author.resolve parent ⟨some id⟩ = some a →
        a ∈ authors ∧ a.id = id ∧ ∀ c ∈ authors, c.id = id → c = a) ∧
    (authors.filter (fun object => strictEq object.id (some id))).length ≤ 1 := by
  have hb : (books.map Book.id).Nodup := by decide
  have ha : (authors.map Author.id).Nodup := by decide
  refine ⟨fun b h => ?_, ?_, fun a h => ?_, ?_⟩
  · obtain ⟨hmem, hp⟩ := mem_of_elem0_filter_eq_some _ books b h
    have hid : b.id = id := (strictEq_some b.id id).mp hp
    exact ⟨hmem, hid, fun c hc hcid =>
      List.inj_on_of_nodup_map hb hc hmem (hcid.trans hid.symm)⟩
  · exact filter_length_le_one_of_nodup_map Book.id id _ books
      (fun x _ hx => (strictEq_some x.id id).mp hx) hb
  · obtain ⟨hmem, hp⟩ := mem_of_elem0_filter_eq_some _ authors a h
    have hid : a.id = id := (strictEq_some a.id id).mp hp
    exact ⟨hmem, hid, fun c hc hcid =>
      List.inj_on_of_nodup_map ha hc hmem (hcid.trans hid.symm)⟩
  · exact filter_length_le_one_of_nodup_map Author.id id _ authors
      (fun x _ hx => (strictEq_some x.id id).mp hx) ha

/-- The lookups of C17 at the id "3": the book "The Long Earth" and the author
"Peter Parker". -/
theorem lookup_result_unique_witness :
    (RootQuery.fields.book.resolve () ⟨some "3"⟩ =
        some { name := "The Long Earth", genre := "Sci-Fi", id := "3", authorId := "3" } ∧
      ∀ c ∈ books, c.id = "3" →
        c = { name := "The Long Earth", genre := "Sci-Fi", id := "3", authorId := "3" }) ∧
    (RootQuery.fields.author.resolve () ⟨some "3"⟩ =
        some { name := "Peter Parker", age := 25, id := "3" } ∧
      ∀ c ∈ authors, c.id = "3" → c = { name := "Peter Parker", age := 25, id := "3" }) :=
  ⟨⟨by decide, ((lookup_result_unique () "3").1 _ (by decide)).2.2⟩,
    ⟨by decide, ((lookup_result_unique () "3").2.2.1 _ (by decide)).2.2⟩⟩
